import Mathlib

/-!
Verification of the `CompetitionState` core of minotaur-cpp
(src/code/compstate/compstate.cpp), shallowly embedded in Lean 4.

`double` values are modelled as rationals (ℚ); all the properties checked
here are exact comparisons and exact arithmetic identities, which the
rational model reflects faithfully on the inputs considered.
-/

/-- `cv::Rect2d`: an axis-aligned rectangle with floating-point fields,
modelled over ℚ. -/
structure Rect2d where
  x : ℚ
  y : ℚ
  width : ℚ
  height : ℚ
deriving Repr, DecidableEq

/-- The local variable `t` of `acquisition_r`:
`rect.width > rect.height ? rect.width / rect.height : rect.height / rect.width`. -/
def acquisition_t (rect : Rect2d) : ℚ :=
  if rect.width > rect.height then rect.width / rect.height
  else rect.height / rect.width

/-- `acquisition_r(rect, calibrated_area)` from compstate.cpp:
```
double area = rect.width * rect.height;
if (!area) { return 1000; }
double t = ...;  -- acquisition_t
if (t <= 0.99) { return 1000; }
return fabs(area - calibrated_area)
       / (area > calibrated_area ? area : calibrated_area) * t;
```
(`0.99` is written `99/100`.) -/
def acquisition_r (rect : Rect2d) (calibrated_area : ℚ) : ℚ :=
  let area := rect.width * rect.height
  if area = 0 then 1000
  else if acquisition_t rect ≤ 99 / 100 then 1000
  else |area - calibrated_area|
       / (if area > calibrated_area then area else calibrated_area)
       * acquisition_t rect

/-- `center_text(rect, label)` formats the rectangle's center for a status
label; the string formatting is abstracted to the center pair it displays:
`(rect.x + rect.width / 2, rect.y + rect.height / 2)`. -/
def center_text (rect : Rect2d) : ℚ × ℚ :=
  (rect.x + rect.width / 2, rect.y + rect.height / 2)

/-- A motion procedure (`Procedure` / `ObjectProcedure`): modelled by the
path it was constructed with and a running flag driven by
`start()` / `stop()`; its internals are external collaborators. -/
structure MotionProc where
  path : List (ℚ × ℚ)
  running : Bool
deriving Repr, DecidableEq

/-- `Procedure::start()`. -/
def MotionProc.start (p : MotionProc) : MotionProc :=
  { p with running := true }

/-- `Procedure::stop()`. -/
def MotionProc.stop (p : MotionProc) : MotionProc :=
  { p with running := false }

/-- The mutable state of `CompetitionState` (members of the class and of
its `Impl`).  Status labels are modelled by the center pair last shown;
the wall set by whether a reference is held. -/
structure CompetitionState where
  box_robot : Rect2d
  box_object : Rect2d
  box_target : Rect2d
  m_tracking_robot : Bool
  m_tracking_object : Bool
  m_acquire_walls : Bool
  m_object_type : ℤ
  m_robot_box_fresh : Bool
  m_object_box_fresh : Bool
  m_robot_loc_label : ℚ × ℚ
  m_object_loc_label : ℚ × ℚ
  m_walls : Bool
  m_path : List (ℚ × ℚ)
  m_procedure : Option MotionProc
  m_object_procedure : Option MotionProc
deriving Repr, DecidableEq

/-- `acquire_robot_box`: updates the robot label, stores the rectangle,
sets the robot freshness flag. -/
def acquire_robot_box (robot_box : Rect2d) (s : CompetitionState) :
    CompetitionState :=
  { s with m_robot_loc_label := center_text robot_box
           box_robot := robot_box
           m_robot_box_fresh := true }

/-- `acquire_object_box`. -/
def acquire_object_box (object_box : Rect2d) (s : CompetitionState) :
    CompetitionState :=
  { s with m_object_loc_label := center_text object_box
           box_object := object_box
           m_object_box_fresh := true }

/-- `acquire_target_box`: overwrites only the target rectangle. -/
def acquire_target_box (target_box : Rect2d) (s : CompetitionState) :
    CompetitionState :=
  { s with box_target := target_box }

/-- `acquire_walls`: stores a shared reference to the wall set. -/
def acquire_walls (s : CompetitionState) : CompetitionState :=
  { s with m_walls := true }

/-- `is_tracking_robot`: the source returns `m_tracking_object`. -/
def is_tracking_robot (s : CompetitionState) : Bool :=
  s.m_tracking_object

/-- `is_tracking_object`. -/
def is_tracking_object (s : CompetitionState) : Bool :=
  s.m_tracking_object

/-- `object_type`. -/
def object_type (s : CompetitionState) : ℤ :=
  s.m_object_type

/-- `set_tracking_robot`. -/
def set_tracking_robot (b : Bool) (s : CompetitionState) : CompetitionState :=
  { s with m_tracking_robot := b }

/-- `set_tracking_object`. -/
def set_tracking_object (b : Bool) (s : CompetitionState) : CompetitionState :=
  { s with m_tracking_object := b }

/-- `set_object_type`. -/
def set_object_type (v : ℤ) (s : CompetitionState) : CompetitionState :=
  { s with m_object_type := v }

/-- `get_robot_box(consume)`: `m_robot_box_fresh = m_robot_box_fresh && !consume;`
then returns the stored rectangle (returned together with the new state). -/
def get_robot_box (consume : Bool) (s : CompetitionState) :
    Rect2d × CompetitionState :=
  (s.box_robot, { s with m_robot_box_fresh := s.m_robot_box_fresh && !consume })

/-- `get_object_box(consume)`. -/
def get_object_box (consume : Bool) (s : CompetitionState) :
    Rect2d × CompetitionState :=
  (s.box_object, { s with m_object_box_fresh := s.m_object_box_fresh && !consume })

/-- `get_target_box`. -/
def get_target_box (s : CompetitionState) : Rect2d :=
  s.box_target

/-- `is_robot_box_fresh`. -/
def is_robot_box_fresh (s : CompetitionState) : Bool :=
  s.m_robot_box_fresh

/-- `is_object_box_fresh`. -/
def is_object_box_fresh (s : CompetitionState) : Bool :=
  s.m_object_box_fresh

/-- `is_robot_box_valid`: `acquisition_r(box_robot, g_pm->robot_calib_area)
< g_pm->area_acq_r_sigma`; the two externally supplied parameter values are
passed as arguments. -/
def is_robot_box_valid (robot_calib_area area_acq_r_sigma : ℚ)
    (s : CompetitionState) : Bool :=
  decide (acquisition_r s.box_robot robot_calib_area < area_acq_r_sigma)

/-- `is_object_box_valid`. -/
def is_object_box_valid (object_calib_area area_acq_r_sigma : ℚ)
    (s : CompetitionState) : Bool :=
  decide (acquisition_r s.box_object object_calib_area < area_acq_r_sigma)

/-- `clear_path`. -/
def clear_path (s : CompetitionState) : CompetitionState :=
  { s with m_path := [] }

/-- `append_path(x, y)`: `m_path.emplace_back(x, y)`. -/
def append_path (x y : ℚ) (s : CompetitionState) : CompetitionState :=
  { s with m_path := s.m_path ++ [(x, y)] }

/-- `get_path`. -/
def get_path (s : CompetitionState) : List (ℚ × ℚ) :=
  s.m_path

/-- `begin_traversal`: constructs a new procedure over the current path and
starts it, replacing whatever the slot held. -/
def begin_traversal (s : CompetitionState) : CompetitionState :=
  { s with m_procedure := some (MotionProc.start ⟨s.m_path, false⟩) }

/-- `halt_traversal`: `m_procedure->stop()`.  The slot is a `unique_ptr`
with no null check; dereferencing an empty slot is the error branch,
modelled as `none`. -/
def halt_traversal (s : CompetitionState) : Option CompetitionState :=
  match s.m_procedure with
  | none => none
  | some p => some { s with m_procedure := some p.stop }

/-- `begin_object_move`. -/
def begin_object_move (s : CompetitionState) : CompetitionState :=
  { s with m_object_procedure := some (MotionProc.start ⟨s.m_path, false⟩) }

/-- `halt_object_move`. -/
def halt_object_move (s : CompetitionState) : Option CompetitionState :=
  match s.m_object_procedure with
  | none => none
  | some p => some { s with m_object_procedure := some p.stop }

/-- An entry-point call on `CompetitionState`, for reasoning about call
sequences. -/
inductive Op where
  | acquireRobotBox (r : Rect2d)
  | acquireObjectBox (r : Rect2d)
  | acquireTargetBox (r : Rect2d)
  | acquireWalls
  | setTrackingRobot (b : Bool)
  | setTrackingObject (b : Bool)
  | setObjectType (v : ℤ)
  | getRobotBox (consume : Bool)
  | getObjectBox (consume : Bool)
  | clearPath
  | appendPath (x y : ℚ)
  | beginTraversal
  | haltTraversal
  | beginObjectMove
  | haltObjectMove
deriving Repr, DecidableEq

/-- Execute one call.  The two `halt` calls are the only fallible ones
(empty procedure slot). -/
def execOp (s : CompetitionState) : Op → Option CompetitionState
  | .acquireRobotBox r => some (acquire_robot_box r s)
  | .acquireObjectBox r => some (acquire_object_box r s)
  | .acquireTargetBox r => some (acquire_target_box r s)
  | .acquireWalls => some (acquire_walls s)
  | .setTrackingRobot b => some (set_tracking_robot b s)
  | .setTrackingObject b => some (set_tracking_object b s)
  | .setObjectType v => some (set_object_type v s)
  | .getRobotBox c => some (get_robot_box c s).2
  | .getObjectBox c => some (get_object_box c s).2
  | .clearPath => some (clear_path s)
  | .appendPath x y => some (append_path x y s)
  | .beginTraversal => some (begin_traversal s)
  | .haltTraversal => halt_traversal s
  | .beginObjectMove => begin_object_move s |> some
  | .haltObjectMove => halt_object_move s

/-- Execute a call sequence left to right, aborting on failure. -/
def run (s : CompetitionState) : List Op → Option CompetitionState
  | [] => some s
  | op :: ops =>
    match execOp s op with
    | none => none
    | some s2 => run s2 ops

/-- Modelled from the spec: the state right after construction.  The class
declaration (header with member initializers) is not under src/; per the
spec's lifecycle section, boxes start as the zero rectangle, flags start
false, the path starts empty, and both procedure slots (default-constructed
`unique_ptr`s) start empty. -/
def initState : CompetitionState :=
  { box_robot := ⟨0, 0, 0, 0⟩
    box_object := ⟨0, 0, 0, 0⟩
    box_target := ⟨0, 0, 0, 0⟩
    m_tracking_robot := false
    m_tracking_object := false
    m_acquire_walls := false
    m_object_type := 0
    m_robot_box_fresh := false
    m_object_box_fresh := false
    m_robot_loc_label := center_text ⟨0, 0, 0, 0⟩
    m_object_loc_label := center_text ⟨0, 0, 0, 0⟩
    m_walls := false
    m_path := []
    m_procedure := none
    m_object_procedure := none }

/-- Appending a list of points by repeated `append_path` calls, in order. -/
def appendAll (pts : List (ℚ × ℚ)) (s : CompetitionState) : CompetitionState :=
  pts.foldl (fun st p => append_path p.1 p.2 st) s

/-- C1: claimed: for rect {0,0,20,5} and calibrated_area 100, the
squareness check fails and the score is 1000.  The code instead computes
t = 4, the check `t <= 0.99` is false, and the score is
|100 - 100| / 100 * 4 = 0.  This theorem evaluates the code at the
claimed input. -/
theorem acquisition_r_wide_flat_rect_returns_zero :
    acquisition_r ⟨0, 0, 20, 5⟩ 100 = 0 := by
  norm_num [acquisition_r, acquisition_t]

/-- C2: every rectangle whose width times height is zero scores exactly
1000, for every calibrated area. -/
theorem acquisition_r_zero_area_returns_sentinel (r : Rect2d) (c : ℚ)
    (h : r.width * r.height = 0) :
    acquisition_r r c = 1000 := by
  simp [acquisition_r, h]

/-- Witness for C2 at rect {0,0,0,5}, calibrated_area 7. -/
theorem acquisition_r_zero_area_returns_sentinel_w :
    (0 : ℚ) * 5 = 0 ∧ acquisition_r ⟨0, 0, 0, 5⟩ 7 = 1000 :=
  ⟨by norm_num,
   acquisition_r_zero_area_returns_sentinel ⟨0, 0, 0, 5⟩ 7 (by norm_num)⟩

/-- C3: for a rectangle of nonzero area passing the squareness check
(t > 0.99), the score is |area - calibrated_area| / max(area,
calibrated_area) * t; in particular a square whose area equals the
calibrated area scores 0. -/
theorem acquisition_r_square_pass_formula (r : Rect2d) (c : ℚ)
    (h1 : r.width * r.height ≠ 0)
    (h2 : 99 / 100 < acquisition_t r) :
    acquisition_r r c
      = |r.width * r.height - c| / max (r.width * r.height) c * acquisition_t r
    ∧ (r.width = r.height ∧ r.width * r.height = c → acquisition_r r c = 0) := by
  have hmax : (if r.width * r.height > c then r.width * r.height else c)
      = max (r.width * r.height) c := by
    rcases lt_or_le c (r.width * r.height) with hlt | hle
    · rw [if_pos hlt, max_eq_left hlt.le]
    · rw [if_neg (not_lt.mpr hle), max_eq_right hle]
  have hform : acquisition_r r c
      = |r.width * r.height - c| / max (r.width * r.height) c * acquisition_t r := by
    simp only [acquisition_r, if_neg h1, if_neg (not_le.mpr h2), hmax]
  refine ⟨hform, ?_⟩
  rintro ⟨-, hc⟩
  rw [hform, hc]
  simp

/-- Witness for C3 at the square {0,0,10,10} with calibrated_area 100. -/
theorem acquisition_r_square_pass_formula_w :
    (10 : ℚ) * 10 ≠ 0 ∧ (99 : ℚ) / 100 < acquisition_t ⟨0, 0, 10, 10⟩
    ∧ acquisition_r ⟨0, 0, 10, 10⟩ 100 = 0 :=
  ⟨by norm_num, by norm_num [acquisition_t],
   (acquisition_r_square_pass_formula ⟨0, 0, 10, 10⟩ 100 (by norm_num)
     (by norm_num [acquisition_t])).2 ⟨rfl, by norm_num⟩⟩

/-- C10: a rectangle with exactly one negative side (the other positive,
so the product is nonzero) scores exactly 1000 for every calibrated area,
because t is negative, hence at most 0.99. -/
theorem acquisition_r_mixed_sign_returns_sentinel (r : Rect2d) (c : ℚ)
    (h : (r.width < 0 ∧ 0 < r.height) ∨ (0 < r.width ∧ r.height < 0)) :
    acquisition_r r c = 1000 ∧ acquisition_t r < 0 := by
  have ht : acquisition_t r < 0 := by
    unfold acquisition_t
    rcases h with ⟨hw, hh⟩ | ⟨hw, hh⟩
    · rw [if_neg (not_lt.mpr (hw.trans hh).le)]
      exact div_neg_of_pos_of_neg hh hw
    · rw [if_pos (hh.trans hw)]
      exact div_neg_of_pos_of_neg hw hh
  have harea : r.width * r.height ≠ 0 := by
    rcases h with ⟨hw, hh⟩ | ⟨hw, hh⟩
    · exact (mul_neg_of_neg_of_pos hw hh).ne
    · exact (mul_neg_of_pos_of_neg hw hh).ne
  have hle : acquisition_t r ≤ 99 / 100 :=
    (ht.trans_le (by norm_num : (0 : ℚ) ≤ 99 / 100)).le
  exact ⟨by simp [acquisition_r, harea, hle], ht⟩

/-- Witness for C10 at rect {0,0,2,-3} with calibrated_area 50. -/
theorem acquisition_r_mixed_sign_returns_sentinel_w :
    ((0 : ℚ) < 2 ∧ (-3 : ℚ) < 0)
    ∧ acquisition_r ⟨0, 0, 2, -3⟩ 50 = 1000 ∧ acquisition_t ⟨0, 0, 2, -3⟩ < 0 :=
  ⟨⟨by norm_num, by norm_num⟩,
   acquisition_r_mixed_sign_returns_sentinel ⟨0, 0, 2, -3⟩ 50
     (Or.inr ⟨by norm_num, by norm_num⟩)⟩

/-- C4: acquiring a box makes it fresh; a consuming read clears freshness;
any read leaves freshness at `fresh && !consume`, so a non-consuming read
preserves it and no read ever sets it; robot and object boxes alike. -/
theorem box_freshness_protocol (s : CompetitionState) (r : Rect2d) (c : Bool) :
    is_robot_box_fresh (acquire_robot_box r s) = true
    ∧ is_robot_box_fresh ((get_robot_box true (acquire_robot_box r s)).2) = false
    ∧ is_robot_box_fresh ((get_robot_box c s).2) = (is_robot_box_fresh s && !c)
    ∧ is_robot_box_fresh ((get_robot_box false s).2) = is_robot_box_fresh s
    ∧ is_object_box_fresh (acquire_object_box r s) = true
    ∧ is_object_box_fresh ((get_object_box true (acquire_object_box r s)).2) = false
    ∧ is_object_box_fresh ((get_object_box c s).2) = (is_object_box_fresh s && !c)
    ∧ is_object_box_fresh ((get_object_box false s).2) = is_object_box_fresh s :=
  ⟨rfl, rfl, rfl, by simp [get_robot_box, is_robot_box_fresh],
   rfl, rfl, rfl, by simp [get_object_box, is_object_box_fresh]⟩

/-- C5: a stored box is valid exactly when its acquisition score against
the externally supplied calibrated area is strictly below the externally
supplied sigma threshold. -/
theorem box_valid_iff_score_below_sigma (s : CompetitionState)
    (robot_calib_area object_calib_area area_acq_r_sigma : ℚ) :
    (is_robot_box_valid robot_calib_area area_acq_r_sigma s = true
      ↔ acquisition_r s.box_robot robot_calib_area < area_acq_r_sigma)
    ∧ (is_object_box_valid object_calib_area area_acq_r_sigma s = true
      ↔ acquisition_r s.box_object object_calib_area < area_acq_r_sigma) := by
  constructor <;> simp [is_robot_box_valid, is_object_box_valid]

/-- C6: `is_tracking_robot` returns the object-tracking flag: it reads
`m_tracking_object`, reflects the value last passed to
`set_tracking_object`, and is unchanged by `set_tracking_robot`. -/
theorem is_tracking_robot_returns_object_flag (s : CompetitionState) (b : Bool) :
    is_tracking_robot s = s.m_tracking_object
    ∧ is_tracking_robot (set_tracking_object b s) = b
    ∧ is_tracking_robot (set_tracking_robot b s) = is_tracking_robot s :=
  ⟨rfl, rfl, rfl⟩

/-- Appending a list of points extends the stored path on the right. -/
theorem get_path_appendAll (pts : List (ℚ × ℚ)) (s : CompetitionState) :
    get_path (appendAll pts s) = get_path s ++ pts := by
  induction pts generalizing s with
  | nil => simp [appendAll, get_path]
  | cons p ps ih =>
    show get_path (appendAll ps (append_path p.1 p.2 s)) = get_path s ++ (p :: ps)
    rw [ih]
    simp [get_path, append_path]

/-- C7: clearing the path leaves it empty, and N appends after a clear
yield exactly those N points in call order. -/
theorem path_clear_append_semantics (s : CompetitionState)
    (pts : List (ℚ × ℚ)) :
    get_path (clear_path s) = []
    ∧ get_path (appendAll pts (clear_path s)) = pts
    ∧ (get_path (appendAll pts (clear_path s))).length = pts.length := by
  have h2 : get_path (appendAll pts (clear_path s)) = pts := by
    rw [get_path_appendAll]
    rfl
  exact ⟨rfl, h2, by rw [h2]⟩

/-- C8: `acquire_target_box` writes the target rectangle and changes no
other component of the state: boxes, freshness flags, labels, walls,
tracking flags, object type, path and both procedure slots are all
preserved. -/
theorem acquire_target_box_frame (s : CompetitionState) (r : Rect2d) :
    (acquire_target_box r s).box_target = r
    ∧ (acquire_target_box r s).box_robot = s.box_robot
    ∧ (acquire_target_box r s).box_object = s.box_object
    ∧ (acquire_target_box r s).m_robot_box_fresh = s.m_robot_box_fresh
    ∧ (acquire_target_box r s).m_object_box_fresh = s.m_object_box_fresh
    ∧ (acquire_target_box r s).m_robot_loc_label = s.m_robot_loc_label
    ∧ (acquire_target_box r s).m_object_loc_label = s.m_object_loc_label
    ∧ (acquire_target_box r s).m_path = s.m_path
    ∧ (acquire_target_box r s).m_tracking_robot = s.m_tracking_robot
    ∧ (acquire_target_box r s).m_tracking_object = s.m_tracking_object
    ∧ (acquire_target_box r s).m_acquire_walls = s.m_acquire_walls
    ∧ (acquire_target_box r s).m_object_type = s.m_object_type
    ∧ (acquire_target_box r s).m_walls = s.m_walls
    ∧ (acquire_target_box r s).m_procedure = s.m_procedure
    ∧ (acquire_target_box r s).m_object_procedure = s.m_object_procedure :=
  ⟨rfl, rfl, rfl, rfl, rfl, rfl, rfl, rfl, rfl, rfl, rfl, rfl, rfl, rfl, rfl⟩

/-- One successful call changes whether the traversal slot is occupied
only by `beginTraversal`, which fills it. -/
theorem execOp_proc_isSome (s s2 : CompetitionState) (op : Op)
    (h : execOp s op = some s2) :
    s2.m_procedure.isSome
      = (s.m_procedure.isSome || decide (Op.beginTraversal = op)) := by
  cases op
  case haltTraversal =>
    unfold execOp halt_traversal at h
    cases hp : s.m_procedure with
    | none => rw [hp] at h; exact absurd h (by simp)
    | some p =>
      rw [hp] at h
      simp only [Option.some.injEq] at h
      rw [← h]
      simp [hp]
  case haltObjectMove =>
    unfold execOp halt_object_move at h
    cases hp : s.m_object_procedure with
    | none => rw [hp] at h; exact absurd h (by simp)
    | some p =>
      rw [hp] at h
      simp only [Option.some.injEq] at h
      rw [← h]
      simp
  all_goals
    simp only [execOp, Option.some.injEq] at h
  all_goals
    rw [← h]
  all_goals
    simp [acquire_robot_box, acquire_object_box, acquire_target_box,
      acquire_walls, set_tracking_robot, set_tracking_object, set_object_type,
      get_robot_box, get_object_box, clear_path, append_path,
      begin_traversal, begin_object_move]

/-- One successful call changes whether the object-move slot is occupied
only by `beginObjectMove`, which fills it. -/
theorem execOp_objproc_isSome (s s2 : CompetitionState) (op : Op)
    (h : execOp s op = some s2) :
    s2.m_object_procedure.isSome
      = (s.m_object_procedure.isSome || decide (Op.beginObjectMove = op)) := by
  cases op
  case haltTraversal =>
    unfold execOp halt_traversal at h
    cases hp : s.m_procedure with
    | none => rw [hp] at h; exact absurd h (by simp)
    | some p =>
      rw [hp] at h
      simp only [Option.some.injEq] at h
      rw [← h]
      simp
  case haltObjectMove =>
    unfold execOp halt_object_move at h
    cases hp : s.m_object_procedure with
    | none => rw [hp] at h; exact absurd h (by simp)
    | some p =>
      rw [hp] at h
      simp only [Option.some.injEq] at h
      rw [← h]
      simp [hp]
  all_goals
    simp only [execOp, Option.some.injEq] at h
  all_goals
    rw [← h]
  all_goals
    simp [acquire_robot_box, acquire_object_box, acquire_target_box,
      acquire_walls, set_tracking_robot, set_tracking_object, set_object_type,
      get_robot_box, get_object_box, clear_path, append_path,
      begin_traversal, begin_object_move]

/-- Across a successful call sequence, the traversal slot ends occupied
exactly when it started occupied or the sequence contains
`beginTraversal`. -/
theorem run_proc_isSome (ops : List Op) :
    ∀ s s2 : CompetitionState, run s ops = some s2 →
      s2.m_procedure.isSome
        = (s.m_procedure.isSome || decide (Op.beginTraversal ∈ ops)) := by
  induction ops with
  | nil =>
    intro s s2 h
    simp only [run, Option.some.injEq] at h
    rw [← h]
    simp
  | cons op ops ih =>
    intro s s2 h
    unfold run at h
    cases he : execOp s op with
    | none => rw [he] at h; exact absurd h (by simp)
    | some s1 =>
      rw [he] at h
      rw [ih s1 s2 h, execOp_proc_isSome s s1 op he]
      simp [List.mem_cons, Bool.or_assoc]

/-- Across a successful call sequence, the object-move slot ends occupied
exactly when it started occupied or the sequence contains
`beginObjectMove`. -/
theorem run_objproc_isSome (ops : List Op) :
    ∀ s s2 : CompetitionState, run s ops = some s2 →
      s2.m_object_procedure.isSome
        = (s.m_object_procedure.isSome || decide (Op.beginObjectMove ∈ ops)) := by
  induction ops with
  | nil =>
    intro s s2 h
    simp only [run, Option.some.injEq] at h
    rw [← h]
    simp
  | cons op ops ih =>
    intro s s2 h
    unfold run at h
    cases he : execOp s op with
    | none => rw [he] at h; exact absurd h (by simp)
    | some s1 =>
      rw [he] at h
      rw [ih s1 s2 h, execOp_objproc_isSome s s1 op he]
      simp [List.mem_cons, Bool.or_assoc]

/-- `halt_traversal` succeeds exactly when the traversal slot is occupied. -/
theorem halt_traversal_isSome (s : CompetitionState) :
    (halt_traversal s).isSome = s.m_procedure.isSome := by
  cases hp : s.m_procedure <;> simp [halt_traversal, hp]

/-- `halt_object_move` succeeds exactly when the object-move slot is
occupied. -/
theorem halt_object_move_isSome (s : CompetitionState) :
    (halt_object_move s).isSome = s.m_object_procedure.isSome := by
  cases hp : s.m_object_procedure <;> simp [halt_object_move, hp]

/-- C9: for any successful call sequence from the freshly constructed
state, `halt_traversal` cannot hit the empty-slot (null-dereference)
branch if `beginTraversal` occurs in the sequence, and it does hit that
branch if `beginTraversal` never occurred; likewise for
`beginObjectMove` / `halt_object_move`. -/
theorem halt_requires_prior_begin (ops : List Op) (s2 : CompetitionState)
    (h : run initState ops = some s2) :
    (Op.beginTraversal ∈ ops → (halt_traversal s2).isSome = true)
    ∧ (Op.beginTraversal ∉ ops → halt_traversal s2 = none)
    ∧ (Op.beginObjectMove ∈ ops → (halt_object_move s2).isSome = true)
    ∧ (Op.beginObjectMove ∉ ops → halt_object_move s2 = none) := by
  have h1 := run_proc_isSome ops initState s2 h
  have h2 := run_objproc_isSome ops initState s2 h
  have hi : initState.m_procedure.isSome = false := rfl
  have hio : initState.m_object_procedure.isSome = false := rfl
  rw [hi, Bool.false_or] at h1
  rw [hio, Bool.false_or] at h2
  refine ⟨fun hm => ?_, fun hm => ?_, fun hm => ?_, fun hm => ?_⟩
  · rw [halt_traversal_isSome, h1]
    simp [hm]
  · have hs : s2.m_procedure.isSome = false := by rw [h1]; simp [hm]
    cases hn : s2.m_procedure with
    | none => simp [halt_traversal, hn]
    | some p => rw [hn] at hs; exact absurd hs (by simp)
  · rw [halt_object_move_isSome, h2]
    simp [hm]
  · have hs : s2.m_object_procedure.isSome = false := by rw [h2]; simp [hm]
    cases hn : s2.m_object_procedure with
    | none => simp [halt_object_move, hn]
    | some p => rw [hn] at hs; exact absurd hs (by simp)

/-- Witness for C9: after `beginTraversal; beginObjectMove` both halts
succeed; from the initial state with no begin, both halts fail. -/
theorem halt_requires_prior_begin_w :
    (halt_traversal (begin_object_move (begin_traversal initState))).isSome = true
    ∧ (halt_object_move (begin_object_move (begin_traversal initState))).isSome = true
    ∧ halt_traversal initState = none
    ∧ halt_object_move initState = none :=
  ⟨(halt_requires_prior_begin [Op.beginTraversal, Op.beginObjectMove] _ rfl).1
     (by simp),
   (halt_requires_prior_begin [Op.beginTraversal, Op.beginObjectMove] _ rfl).2.2.1
     (by simp),
   (halt_requires_prior_begin [] _ rfl).2.1 (by simp),
   (halt_requires_prior_begin [] _ rfl).2.2.2 (by simp)⟩
